import Mathlib

/-!
Verification of the greenleaf-nursery storefront's two specified components:

* the Cart Total Calculator (`src/backend/routes/cart.js`), and
* the Login Attempt Guard (Redis login rate limiter, `middleware/loginRateLimiter.js`).

Monetary amounts are modelled as exact rationals (the JS source uses IEEE
doubles; the spec's arithmetic is stated in exact decimals, which the rational
model captures).  `Math.round x` in JS rounds half toward positive infinity,
i.e. `⌊x + 1/2⌋`; `round2` below models `Math.round (x * 100) / 100`.
Inert display fields of the JS objects (names, images, timestamps, session
UUIDs) play no role in any claim and are omitted from the records.
-/

namespace Greenleaf

/-- `Math.round (q * 100) / 100` — round to 2 decimal places, halves toward
+∞ (`Math.round x = ⌊x + 1/2⌋`). -/
def round2 (q : ℚ) : ℚ := ((⌊q * 100 + 1/2⌋ : ℤ) : ℚ) / 100

/-- A cart line item as stored in `carts.json`: `{ productId, price, quantity }`
(display-only fields omitted). -/
structure CartItem where
  productId : ℕ
  price : ℚ
  quantity : ℕ
deriving DecidableEq, Repr

/-- The totals object returned by `calculateCartTotals` in cart.js. -/
structure CartTotals where
  subtotal : ℚ
  tax : ℚ
  shipping : ℚ
  total : ℚ
  freeShipping : Bool
  amountForFreeShipping : ℚ
deriving DecidableEq, Repr

/-- `calculateCartTotals` from cart.js lines 109–136, transcribed clause by
clause: subtotal is a `reduce` (left fold) of `price * quantity`, tax rate
0.085, shipping 9.99 below the 75 threshold and 0 at or above it, each output
rounded to 2 decimals, and `amountForFreeShipping` computed by the source's
conditional expression. -/
def calculateCartTotals (items : List CartItem) : CartTotals :=
  let subtotal := items.foldl (fun sum item => sum + item.price * (item.quantity : ℚ)) 0
  let taxRate : ℚ := 85/1000
  let tax := subtotal * taxRate
  let shippingThreshold : ℚ := 75
  let shippingCost : ℚ := 999/100
  let shipping := if shippingThreshold ≤ subtotal then 0 else shippingCost
  let total := subtotal + tax + shipping
  { subtotal := round2 subtotal
    tax := round2 tax
    shipping := round2 shipping
    total := round2 total
    freeShipping := decide (shippingThreshold ≤ subtotal)
    amountForFreeShipping :=
      if shippingThreshold ≤ subtotal then 0 else round2 (shippingThreshold - subtotal) }

/-- A cart session object (sessionId / timestamps omitted as inert). -/
structure Cart where
  items : List CartItem
  totals : CartTotals
  itemCount : ℕ
deriving DecidableEq, Repr

/-- `createNewCart` from cart.js lines 142–152: empty items, totals of the
empty list, item count 0. -/
def createNewCart : Cart :=
  { items := [], totals := calculateCartTotals [], itemCount := 0 }

/-- `updateCartCalculations` from cart.js lines 158–162: recompute `totals`
from the current items and `itemCount` as the `reduce` of quantities. -/
def updateCartCalculations (cart : Cart) : Cart :=
  { cart with
    totals := calculateCartTotals cart.items
    itemCount := cart.items.foldl (fun sum item => sum + item.quantity) 0 }

/-- A product record from `products.json`, restricted to the fields the cart
routes consult: `id`, `price`, `inStock`. -/
structure Product where
  id : ℕ
  price : ℚ
  inStock : Bool
deriving DecidableEq, Repr

/-- The `createError` outcomes thrown by the cart routes. -/
inductive CartError where
  | cartNotFound
  | productNotFound
  | outOfStock
  | maxQuantity
  | itemNotFound
deriving DecidableEq, Repr

/-- `POST /:sessionId/items` (cart.js lines 251–347), the state transformation
on a found cart: look the product up, reject when missing or out of stock; if
the product is already a line of the cart (`findIndex` on `productId`), merge
by summing quantities, rejecting sums over 99 before any mutation; otherwise
push a fresh line; finally `updateCartCalculations`.  Errors are thrown before
`writeCarts`, so an error leaves the stored cart unchanged (see
`addItemRoute`). -/
def addItemToCart (products : List Product) (productId quantity : ℕ)
    (cart : Cart) : Except CartError Cart :=
  match products.find? (fun p => decide (p.id = productId)) with
  | none => .error .productNotFound
  | some product =>
    if product.inStock = false then .error .outOfStock
    else
      match cart.items.findIdx? (fun item => decide (item.productId = productId)) with
      | some existingItemIndex =>
        match cart.items[existingItemIndex]? with
        | none => .error .itemNotFound
        | some existingItem =>
          let newQuantity := existingItem.quantity + quantity
          if 99 < newQuantity then .error .maxQuantity
          else
            .ok (updateCartCalculations
              { cart with items :=
                  cart.items.set existingItemIndex { existingItem with quantity := newQuantity } })
      | none =>
        .ok (updateCartCalculations
          { cart with items :=
              cart.items ++ [{ productId := product.id, price := product.price,
                               quantity := quantity }] })

/-- The store-level effect of the add-item route on the persisted cart: the
new cart is written only when no error was thrown; on error the stored cart is
left as it was. -/
def addItemRoute (products : List Product) (productId quantity : ℕ)
    (stored : Cart) : Cart × Option CartError :=
  match addItemToCart products productId quantity stored with
  | .ok cart => (cart, none)
  | .error e => (stored, some e)

/-- `PUT /:sessionId/items/:productId` (cart.js lines 368–427): find the line
item, overwrite its quantity, recompute. -/
def updateItemQuantity (productId quantity : ℕ) (cart : Cart) :
    Except CartError Cart :=
  match cart.items.findIdx? (fun item => decide (item.productId = productId)) with
  | none => .error .itemNotFound
  | some itemIndex =>
    match cart.items[itemIndex]? with
    | none => .error .itemNotFound
    | some item =>
      .ok (updateCartCalculations
        { cart with items := cart.items.set itemIndex { item with quantity := quantity } })

/-- `DELETE /:sessionId/items/:productId` (cart.js lines 442–499): splice the
line item out, recompute. -/
def removeItemFromCart (productId : ℕ) (cart : Cart) : Except CartError Cart :=
  match cart.items.findIdx? (fun item => decide (item.productId = productId)) with
  | none => .error .itemNotFound
  | some itemIndex =>
    .ok (updateCartCalculations { cart with items := cart.items.eraseIdx itemIndex })

/-- `DELETE /:sessionId/clear` (cart.js lines 512–560): empty the items,
recompute. -/
def clearCart (cart : Cart) : Cart :=
  updateCartCalculations { cart with items := [] }

/-- The per-item scan of `POST /:sessionId/validate` (cart.js lines 647–681):
drop lines whose product vanished or went out of stock, refresh a changed
price, and report whether anything changed.  The source iterates from the end
splicing in place; per-item effects are independent, so the result equals this
elementwise pass. -/
def validateItems (products : List Product) : List CartItem → List CartItem × Bool
  | [] => ([], false)
  | item :: rest =>
    let tail := validateItems products rest
    match products.find? (fun p => decide (p.id = item.productId)) with
    | none => (tail.1, true)
    | some product =>
      if product.inStock = false then (tail.1, true)
      else if product.price ≠ item.price then
        ({ item with price := product.price } :: tail.1, true)
      else (item :: tail.1, tail.2)

/-- `POST /:sessionId/validate` (cart.js lines 621–704) on a found cart:
recompute and persist only when the scan changed something; otherwise the cart
is returned untouched. -/
def validateCart (products : List Product) (cart : Cart) : Cart :=
  let scanned := validateItems products cart.items
  if scanned.2 then updateCartCalculations { cart with items := scanned.1 } else cart

/-!
## Login Attempt Guard (`middleware/loginRateLimiter.js`)

The Redis keys for one fixed identifier are modelled as a record:
`attempts` is the `login_attempts:<id>` key, an optional (count, remaining
TTL) pair, and `blockFlag` is the `login_blocked:<id>` key, an optional
remaining TTL (its value is always the string "blocked").  `storeDown`
models an unreachable Redis: every client call throws, which each exported
function catches per the source's try/catch.  TTLs are in seconds and do not
tick within a modelled call sequence (all the verified scenarios sit inside
one attempt window).
-/

def MAX_ATTEMPTS : ℕ := 5

/-- 15 minutes in seconds. -/
def BLOCK_DURATION : ℕ := 15 * 60

/-- 15 minutes window for attempts, in seconds. -/
def ATTEMPT_WINDOW : ℕ := 15 * 60

/-- The Redis keys for one identifier, plus reachability of the store. -/
structure RedisState where
  attempts : Option (ℕ × ℕ)
  blockFlag : Option ℕ
  storeDown : Bool
deriving DecidableEq, Repr

/-- `req.loginAttempts`, stashed by `checkLoginAttempts` for the later
`recordFailedAttempt` / `clearFailedAttempts` calls. -/
structure LoginAttemptInfo where
  currentAttempts : ℕ
  remainingAttempts : ℤ
deriving DecidableEq, Repr

/-- Outcome of the `checkLoginAttempts` middleware: a 429 response, or
`next()` with the optional stashed `req.loginAttempts`. -/
inductive CheckOutcome where
  | blocked (minutesLeft : ℕ)
  | proceed (info : Option LoginAttemptInfo)
deriving DecidableEq, Repr

/-- `checkLoginAttempts` (loginRateLimiter.js lines 20–73).  A present block
flag yields a 429 with `Math.ceil (ttl / 60)` minutes left.  Otherwise, a
counter at or above `MAX_ATTEMPTS` sets the block flag for `BLOCK_DURATION`,
deletes the counter, and yields a 429 quoting 15 minutes.  Otherwise the
request proceeds with `req.loginAttempts` stashed.  Any Redis error is caught
and the request proceeds with nothing stashed (fail open); when the store is
down the first client call (`get blockKey`) already throws, before any
mutation. -/
def checkLoginAttempts (s : RedisState) : CheckOutcome × RedisState :=
  if s.storeDown then (.proceed none, s)
  else
    match s.blockFlag with
    | some ttl => (.blocked ((ttl + 59) / 60), s)
    | none =>
      let attemptCount := (s.attempts.map Prod.fst).getD 0
      if MAX_ATTEMPTS ≤ attemptCount then
        (.blocked 15, { s with blockFlag := some BLOCK_DURATION, attempts := none })
      else
        (.proceed (some { currentAttempts := attemptCount
                          remainingAttempts := (MAX_ATTEMPTS : ℤ) - attemptCount }), s)

/-- The value returned by `recordFailedAttempt` on success. -/
structure RecordResult where
  attempts : ℕ
  remaining : ℤ
  willBlock : Bool
deriving DecidableEq, Repr

/-- `recordFailedAttempt` (loginRateLimiter.js lines 78–101).  Returns early
when `req.loginAttempts` is absent; otherwise `setEx` writes
`currentAttempts + 1` with the attempt-window TTL and the function returns
the new count, `MAX_ATTEMPTS - newCount`, and `willBlock = (remaining ≤ 0)`.
A Redis error is caught and `null` is returned with no mutation. -/
def recordFailedAttempt (info : Option LoginAttemptInfo) (s : RedisState) :
    Option RecordResult × RedisState :=
  match info with
  | none => (none, s)
  | some la =>
    if s.storeDown then (none, s)
    else
      let newAttemptCount := la.currentAttempts + 1
      let remainingAttempts : ℤ := (MAX_ATTEMPTS : ℤ) - newAttemptCount
      (some { attempts := newAttemptCount
              remaining := remainingAttempts
              willBlock := decide (remainingAttempts ≤ 0) },
       { s with attempts := some (newAttemptCount, ATTEMPT_WINDOW) })

/-- `clearFailedAttempts` (loginRateLimiter.js lines 106–117): return early
when `req.loginAttempts` is absent, else delete the attempts key.  A Redis
error is caught with no mutation. -/
def clearFailedAttempts (info : Option LoginAttemptInfo) (s : RedisState) :
    RedisState :=
  match info with
  | none => s
  | some _ => if s.storeDown then s else { s with attempts := none }

/-- `unblockUser` (loginRateLimiter.js lines 122–136): delete both keys. -/
def unblockUser (s : RedisState) : RedisState :=
  if s.storeDown then s else { s with attempts := none, blockFlag := none }

/-- The value returned by `getLoginAttemptStatus` on success. -/
structure StatusResult where
  blocked : Bool
  attempts : ℕ
  remaining : ℤ
  blockedFor : ℕ
deriving DecidableEq, Repr

/-- `getLoginAttemptStatus` (loginRateLimiter.js lines 141–172): read-only
status; blocked exactly when the block flag is present. -/
def getLoginAttemptStatus (s : RedisState) : Option StatusResult :=
  if s.storeDown then none
  else
    match s.blockFlag with
    | some ttl =>
      some { blocked := true, attempts := MAX_ATTEMPTS, remaining := 0, blockedFor := ttl }
    | none =>
      let attemptCount := (s.attempts.map Prod.fst).getD 0
      some { blocked := false, attempts := attemptCount
             remaining := (MAX_ATTEMPTS : ℤ) - attemptCount, blockedFor := 0 }

/-- One failed login attempt as the auth route drives the middleware: run
`checkLoginAttempts`; when the request proceeds, the credential check fails
and `recordFailedAttempt` runs with the stashed info. -/
def failedLogin (s : RedisState) : RedisState :=
  match checkLoginAttempts s with
  | (.proceed info, s1) => (recordFailedAttempt info s1).2
  | (.blocked _, s1) => s1

/-!
## Derived predicates
-/

/-- The invariant of C9: stored totals are exactly the calculator applied to
the stored items, and the item count is the sum of the quantities. -/
def cartWellFormed (c : Cart) : Prop :=
  c.totals = calculateCartTotals c.items ∧
  c.itemCount = (c.items.map CartItem.quantity).sum

/-- The invariant of C10: every stored line quantity lies in [1, 99]. -/
def cartQuantitiesValid (c : Cart) : Prop :=
  ∀ item ∈ c.items, 1 ≤ item.quantity ∧ item.quantity ≤ 99

/-!
## Helper lemmas
-/

theorem foldl_add_sum {M α : Type} [AddCommMonoid M] (g : α → M) (a : M)
    (l : List α) : l.foldl (fun s x => s + g x) a = a + (l.map g).sum := by
  induction l generalizing a with
  | nil => simp
  | cons x xs ih => simp [ih, add_assoc]

theorem round2_zero : round2 0 = 0 := by norm_num [round2]

theorem round2_shippingCost : round2 (999/100) = 999/100 := by norm_num [round2]

theorem updateCartCalculations_items (c : Cart) :
    (updateCartCalculations c).items = c.items := rfl

theorem updateCartCalculations_wellFormed (c : Cart) :
    cartWellFormed (updateCartCalculations c) := by
  refine ⟨rfl, ?_⟩
  rw [updateCartCalculations_items]
  show c.items.foldl (fun sum item => sum + item.quantity) 0 = _
  rw [foldl_add_sum CartItem.quantity 0 c.items, Nat.zero_add]

/-- The spec's raw subtotal: `Σ unitPrice_i * quantity_i` over the line items. -/
def specSubtotal (items : List CartItem) : ℚ :=
  (items.map (fun item => item.price * (item.quantity : ℚ))).sum

theorem calculateCartTotals_subtotal (items : List CartItem) :
    (calculateCartTotals items).subtotal = round2 (specSubtotal items) := by
  simp only [calculateCartTotals, specSubtotal]
  rw [foldl_add_sum (fun item => item.price * (item.quantity : ℚ)) 0 items, zero_add]

/-!
## Claims
-/

/-- C1, counterexample: on the empty line-item list `calculateCartTotals`
does NOT return all-zero totals — `0 >= 75` is false, so the flat `$9.99`
shipping fee is charged and the total is `9.99`, contradicting the claimed
`shipping = 0` and `total = 0`. -/
theorem C1_empty_cart_not_all_zero :
    (calculateCartTotals []).shipping = 999/100 ∧
    (calculateCartTotals []).total = 999/100 ∧
    ¬ ((calculateCartTotals []).shipping = 0 ∧ (calculateCartTotals []).total = 0) := by
  refine ⟨?_, ?_, ?_⟩ <;> norm_num [calculateCartTotals, round2]

/-- C1, amended: on the empty line-item list `calculateCartTotals` returns
`subtotal = 0`, `tax = 0`, `shipping = 9.99`, `total = 9.99`,
`freeShipping = false` and `amountForFreeShipping = 75.00` (the free-shipping
threshold); `createNewCart` stores exactly these totals with item count 0. -/
theorem C1_empty_cart_totals :
    calculateCartTotals [] =
      { subtotal := 0, tax := 0, shipping := 999/100, total := 999/100,
        freeShipping := false, amountForFreeShipping := 75 } ∧
    createNewCart.totals = calculateCartTotals [] ∧
    createNewCart.itemCount = 0 := by
  refine ⟨?_, rfl, rfl⟩
  norm_num [calculateCartTotals, round2]

/-- C3, counterexample: `calculateCartTotals` performs no input validation
whatsoever — applied to the single item `{unitPrice: -5, quantity: 1}` it
does not raise any error but returns a full totals object with the negative
subtotal `-5` flowing straight into the arithmetic (`shipping = 9.99`,
`freeShipping = false`, `amountForFreeShipping = 80`), contradicting the
claimed `InvalidInput` rejection before computation. -/
theorem C3_negative_price_not_rejected :
    (calculateCartTotals [{ productId := 1, price := -5, quantity := 1 }]).subtotal = -5 ∧
    (calculateCartTotals [{ productId := 1, price := -5, quantity := 1 }]).shipping = 999/100 ∧
    (calculateCartTotals [{ productId := 1, price := -5, quantity := 1 }]).freeShipping = false ∧
    (calculateCartTotals [{ productId := 1, price := -5, quantity := 1 }]).amountForFreeShipping = 80 := by
  refine ⟨?_, ?_, ?_, ?_⟩ <;> norm_num [calculateCartTotals, round2]

/-- C3, amended: the calculator rejects nothing — negative or zero unit
prices and zero quantities are silently accepted and computed with: the
subtotal of any single line is `round2 (price * quantity)` for every rational
price including negative ones, `{unitPrice: -5, quantity: 1}` yields
subtotal `-5`, and `{unitPrice: 10, quantity: 0}` yields subtotal `0` with
the flat shipping fee still charged. -/
theorem C3_no_validation :
    (∀ p : ℚ, ∀ q : ℕ,
      (calculateCartTotals [{ productId := 1, price := p, quantity := q }]).subtotal
        = round2 (p * q)) ∧
    (calculateCartTotals [{ productId := 1, price := -5, quantity := 1 }]).subtotal = -5 ∧
    (calculateCartTotals [{ productId := 1, price := 10, quantity := 0 }]).subtotal = 0 ∧
    (calculateCartTotals [{ productId := 1, price := 10, quantity := 0 }]).shipping = 999/100 := by
  refine ⟨fun p q => ?_, ?_, ?_, ?_⟩
  · rw [calculateCartTotals_subtotal]
    simp [specSubtotal]
  all_goals norm_num [calculateCartTotals, round2]

/-- C8: for every line-item list, writing `S` for the raw subtotal
`Σ price_i * quantity_i`, the calculator returns `subtotal = round2 S`,
`tax = round2 (S * 0.085)`, `shipping = 0` when `S ≥ 75` and `9.99`
otherwise, `total = round2 (S + S * 0.085 + shipping_raw)`,
`freeShipping = (75 ≤ S)` and `amountForFreeShipping = round2 (max 0 (75 - S))`
— each derived quantity rounded half-up to 2 decimals independently of the
others, none propagated in rounded form; and on the single item
`{unitPrice: 10, quantity: 2}` it returns subtotal `20.00`, tax `1.70`,
shipping `9.99`, total `31.69`, `freeShipping = false`,
`amountForFreeShipping = 55.00`. -/
theorem C8_totals_formula :
    (∀ items : List CartItem,
      calculateCartTotals items =
        { subtotal := round2 (specSubtotal items)
          tax := round2 (specSubtotal items * (85/1000))
          shipping := if (75:ℚ) ≤ specSubtotal items then 0 else 999/100
          total := round2 (specSubtotal items + specSubtotal items * (85/1000) +
            if (75:ℚ) ≤ specSubtotal items then 0 else 999/100)
          freeShipping := decide ((75:ℚ) ≤ specSubtotal items)
          amountForFreeShipping := round2 (max 0 (75 - specSubtotal items)) }) ∧
    calculateCartTotals [{ productId := 1, price := 10, quantity := 2 }] =
      { subtotal := 20, tax := 17/10, shipping := 999/100, total := 3169/100,
        freeShipping := false, amountForFreeShipping := 55 } := by
  constructor
  · intro items
    simp only [calculateCartTotals]
    rw [foldl_add_sum (fun item => item.price * (item.quantity : ℚ)) 0 items, zero_add]
    show CartTotals.mk _ _ _ _ _ _ = _
    simp only [specSubtotal, CartTotals.mk.injEq]
    set S := (items.map (fun item => item.price * (item.quantity : ℚ))).sum with hS
    by_cases h : (75:ℚ) ≤ S
    · have hmax : max 0 (75 - S) = 0 := max_eq_left (by linarith)
      simp [if_pos h, hmax, round2_zero]
    · have hmax : max 0 (75 - S) = 75 - S := max_eq_right (by linarith)
      simp [if_neg h, hmax, round2_shippingCost]
  · norm_num [calculateCartTotals, round2]

theorem validateItems_quantity_from (products : List Product)
    (items : List CartItem) :
    ∀ item ∈ (validateItems products items).1,
      ∃ it ∈ items, item.quantity = it.quantity := by
  induction items with
  | nil => intro item hmem; simp [validateItems] at hmem
  | cons x xs ih =>
    intro item hmem
    simp only [validateItems] at hmem
    split at hmem
    · obtain ⟨it, h1, h2⟩ := ih item hmem
      exact ⟨it, List.mem_cons_of_mem _ h1, h2⟩
    · split at hmem
      · obtain ⟨it, h1, h2⟩ := ih item hmem
        exact ⟨it, List.mem_cons_of_mem _ h1, h2⟩
      · split at hmem
        · rcases List.mem_cons.1 hmem with rfl | hmem
          · exact ⟨_, List.mem_cons_self _ _, rfl⟩
          · obtain ⟨it, h1, h2⟩ := ih item hmem
            exact ⟨it, List.mem_cons_of_mem _ h1, h2⟩
        · rcases List.mem_cons.1 hmem with rfl | hmem
          · exact ⟨_, List.mem_cons_self _ _, rfl⟩
          · obtain ⟨it, h1, h2⟩ := ih item hmem
            exact ⟨it, List.mem_cons_of_mem _ h1, h2⟩

/-- C9: after every cart state transformation — creating a cart, adding anderive
item, updating a quantity, removing an item, clearing, and validating — the
resulting cart satisfies `cartWellFormed`: its `totals` field equals
`calculateCartTotals` of its current items, and its `itemCount` equals the
sum of the item quantities; validation recomputes only when it changed
something, so there it preserves the invariant rather than re-establishing
it. -/
theorem C9_totals_always_derived :
    cartWellFormed createNewCart ∧
    (∀ products productId quantity cart c2,
      addItemToCart products productId quantity cart = .ok c2 → cartWellFormed c2) ∧
    (∀ productId quantity cart c2,
      updateItemQuantity productId quantity cart = .ok c2 → cartWellFormed c2) ∧
    (∀ productId cart c2,
      removeItemFromCart productId cart = .ok c2 → cartWellFormed c2) ∧
    (∀ cart, cartWellFormed (clearCart cart)) ∧
    (∀ products cart, cartWellFormed cart → cartWellFormed (validateCart products cart)) := by
  refine ⟨⟨rfl, rfl⟩, ?_, ?_, ?_, ?_, ?_⟩
  · intro products productId quantity cart c2 h
    simp only [addItemToCart] at h
    repeat' split at h
    any_goals exact Except.noConfusion h
    all_goals injection h with h2
    all_goals exact h2 ▸ updateCartCalculations_wellFormed _
  · intro productId quantity cart c2 h
    simp only [updateItemQuantity] at h
    repeat' split at h
    any_goals exact Except.noConfusion h
    all_goals injection h with h2
    all_goals exact h2 ▸ updateCartCalculations_wellFormed _
  · intro productId cart c2 h
    simp only [removeItemFromCart] at h
    repeat' split at h
    any_goals exact Except.noConfusion h
    all_goals injection h with h2
    all_goals exact h2 ▸ updateCartCalculations_wellFormed _
  · intro cart
    exact updateCartCalculations_wellFormed _
  · intro products cart hwf
    simp only [validateCart]
    split
    · exact updateCartCalculations_wellFormed _
    · exact hwf

/-- C9 witness: validating the freshly created empty cart against an empty
catalogue keeps it well-formed. -/
theorem C9_witness : cartWellFormed (validateCart [] createNewCart) :=
  C9_totals_always_derived.2.2.2.2.2 [] createNewCart ⟨rfl, rfl⟩

/-- C10: the quantity invariant 1 ≤ q ≤ 99 holds for the created cart and is
preserved by every item-changing operation (the route validators bound the
incoming quantity by 1..99); adding a product already in the cart merges into
the existing line by summing quantities; and an add whose merged quantity
exceeds 99 throws `maxQuantity` before `writeCarts`, so the stored cart is
unchanged. -/
theorem C10_quantity_bounds :
    cartQuantitiesValid createNewCart ∧
    (∀ products productId quantity cart c2,
      1 ≤ quantity → quantity ≤ 99 → cartQuantitiesValid cart →
      addItemToCart products productId quantity cart = .ok c2 →
      cartQuantitiesValid c2) ∧
    (∀ productId quantity cart c2,
      1 ≤ quantity → quantity ≤ 99 → cartQuantitiesValid cart →
      updateItemQuantity productId quantity cart = .ok c2 →
      cartQuantitiesValid c2) ∧
    (∀ productId cart c2, cartQuantitiesValid cart →
      removeItemFromCart productId cart = .ok c2 → cartQuantitiesValid c2) ∧
    (∀ cart, cartQuantitiesValid (clearCart cart)) ∧
    (∀ products cart, cartQuantitiesValid cart →
      cartQuantitiesValid (validateCart products cart)) ∧
    (∀ products productId quantity cart product i existingItem,
      products.find? (fun p => decide (p.id = productId)) = some product →
      product.inStock = true →
      cart.items.findIdx? (fun item => decide (item.productId = productId)) = some i →
      cart.items[i]? = some existingItem →
      existingItem.quantity + quantity ≤ 99 →
      addItemToCart products productId quantity cart =
        .ok (updateCartCalculations
          { cart with items :=
              cart.items.set i { existingItem with quantity := existingItem.quantity + quantity } })) ∧
    (∀ products productId quantity cart product i existingItem,
      products.find? (fun p => decide (p.id = productId)) = some product →
      product.inStock = true →
      cart.items.findIdx? (fun item => decide (item.productId = productId)) = some i →
      cart.items[i]? = some existingItem →
      99 < existingItem.quantity + quantity →
      addItemRoute products productId quantity cart = (cart, some .maxQuantity)) := by
  refine ⟨?_, ?_, ?_, ?_, ?_, ?_, ?_, ?_⟩
  · intro item hmem
    exact absurd hmem (List.not_mem_nil item)
  · intro products productId quantity cart c2 h1 h99 hval h
    simp only [addItemToCart] at h
    repeat' split at h
    any_goals exact Except.noConfusion h
    all_goals injection h with h2
    all_goals subst h2
    · intro item hmem
      rw [updateCartCalculations_items] at hmem
      rcases List.mem_or_eq_of_mem_set hmem with hmem | rfl
      · exact hval item hmem
      · refine ⟨?_, ?_⟩ <;> simp <;> omega
    · intro item hmem
      rw [updateCartCalculations_items] at hmem
      rcases List.mem_append.1 hmem with hmem | hmem
      · exact hval item hmem
      · rw [List.mem_singleton] at hmem
        subst hmem
        exact ⟨h1, h99⟩
  · intro productId quantity cart c2 h1 h99 hval h
    simp only [updateItemQuantity] at h
    repeat' split at h
    any_goals exact Except.noConfusion h
    all_goals injection h with h2
    all_goals subst h2
    intro item hmem
    rw [updateCartCalculations_items] at hmem
    rcases List.mem_or_eq_of_mem_set hmem with hmem | rfl
    · exact hval item hmem
    · exact ⟨h1, h99⟩
  · intro productId cart c2 hval h
    simp only [removeItemFromCart] at h
    repeat' split at h
    any_goals exact Except.noConfusion h
    all_goals injection h with h2
    all_goals subst h2
    intro item hmem
    rw [updateCartCalculations_items] at hmem
    exact hval item (List.Sublist.mem hmem (List.eraseIdx_sublist _ _))
  · intro cart item hmem
    rw [clearCart, updateCartCalculations_items] at hmem
    exact absurd hmem (List.not_mem_nil item)
  · intro products cart hval
    simp only [validateCart]
    split
    · intro item hmem
      rw [updateCartCalculations_items] at hmem
      obtain ⟨it, hit, hq⟩ := validateItems_quantity_from products cart.items item hmem
      obtain ⟨ha, hb⟩ := hval it hit
      omega
    · exact hval
  · intro products productId quantity cart product i existingItem hf hs hidx hget hle
    simp only [addItemToCart, hf, hs, hidx, hget]
    rw [if_neg (by simp), if_neg (by omega)]
  · intro products productId quantity cart product i existingItem hf hs hidx hget hlt
    have hadd : addItemToCart products productId quantity cart = .error .maxQuantity := by
      simp only [addItemToCart, hf, hs, hidx, hget]
      rw [if_neg (by simp), if_pos (by omega)]
    simp [addItemRoute, hadd]

/-- C10 witness: a cart holding 50 of product 1 rejects adding 60 more (the
merged quantity 110 exceeds 99) and the stored cart is returned unchanged
with the `maxQuantity` error. -/
theorem C10_witness :
    addItemRoute [{ id := 1, price := 10, inStock := true }] 1 60
        { items := [{ productId := 1, price := 10, quantity := 50 }],
          totals := calculateCartTotals [{ productId := 1, price := 10, quantity := 50 }],
          itemCount := 50 } =
      ({ items := [{ productId := 1, price := 10, quantity := 50 }],
         totals := calculateCartTotals [{ productId := 1, price := 10, quantity := 50 }],
         itemCount := 50 }, some .maxQuantity) :=
  C10_quantity_bounds.2.2.2.2.2.2.2 _ 1 60 _ _ 0 _ rfl rfl rfl rfl (by decide)

/-- C2, counterexample: with the counter at 4 (so the stashed
`req.loginAttempts` carries `currentAttempts = 4`), `recordFailedAttempt`
takes the count to the threshold 5 and reports `willBlock = true`, yet the
resulting store still has NO block flag and the counter is NOT deleted — it
is overwritten with 5 and the window TTL.  Setting the flag and deleting the
counter happen only in the next `checkLoginAttempts` call, contradicting the
claim that the same operation does both. -/
theorem C2_block_not_set_on_breach :
    (recordFailedAttempt (some { currentAttempts := 4, remainingAttempts := 1 })
        { attempts := some (4, 900), blockFlag := none, storeDown := false }).1 =
      some { attempts := 5, remaining := 0, willBlock := true } ∧
    (recordFailedAttempt (some { currentAttempts := 4, remainingAttempts := 1 })
        { attempts := some (4, 900), blockFlag := none, storeDown := false }).2 =
      { attempts := some (5, ATTEMPT_WINDOW), blockFlag := none, storeDown := false } := by
  decide

/-- C2, amended: with the store reachable, `recordFailedAttempt` only writes
`currentAttempts + 1` to the Attempt Counter with the attempt-window TTL
(`setEx`, which also refreshes the TTL when the counter exists) and returns
`{newCount, remaining = MAX_ATTEMPTS - newCount, willBlock = remaining ≤ 0}`;
it never sets the Block Flag nor deletes the counter — the next
`checkLoginAttempts` does that upon observing count ≥ threshold.  Under the
precondition `currentAttempts < MAX_ATTEMPTS` (guaranteed by the preceding
`checkLoginAttempts`), the returned `remaining` equals
`max 0 (MAX_ATTEMPTS - newCount)`. -/
theorem C2_recordFailedAttempt_spec (la : LoginAttemptInfo) (s : RedisState)
    (h : s.storeDown = false) :
    recordFailedAttempt (some la) s =
      (some { attempts := la.currentAttempts + 1
              remaining := (MAX_ATTEMPTS : ℤ) - (la.currentAttempts + 1)
              willBlock := decide (((MAX_ATTEMPTS : ℤ) - (la.currentAttempts + 1)) ≤ 0) },
       { s with attempts := some (la.currentAttempts + 1, ATTEMPT_WINDOW) }) ∧
    (la.currentAttempts < MAX_ATTEMPTS →
      (MAX_ATTEMPTS : ℤ) - (la.currentAttempts + 1) =
        max 0 ((MAX_ATTEMPTS : ℤ) - (la.currentAttempts + 1))) := by
  constructor
  · simp [recordFailedAttempt, h]
  · intro hlt
    simp only [MAX_ATTEMPTS] at hlt ⊢
    omega

/-- C2 witness: from a fresh state, the first failure writes count 1 with the
window TTL, reports 4 remaining, and does not block. -/
theorem C2_witness :
    recordFailedAttempt (some { currentAttempts := 0, remainingAttempts := 5 })
        { attempts := none, blockFlag := none, storeDown := false } =
      (some { attempts := 1, remaining := 4, willBlock := false },
       { attempts := some (1, ATTEMPT_WINDOW), blockFlag := none, storeDown := false }) :=
  ((C2_recordFailedAttempt_spec { currentAttempts := 0, remainingAttempts := 5 }
      { attempts := none, blockFlag := none, storeDown := false } rfl).1).trans (by decide)

/-- C4, counterexample: in the reachable state where the Attempt Counter sits
at the threshold (5) but no Block Flag exists, `checkLoginAttempts` returns
Blocked — so "Blocked exactly when a Block Flag exists" is false for the
pre-credential gate. -/
theorem C4_blocked_without_flag :
    ({ attempts := some (5, 900), blockFlag := none, storeDown := false } : RedisState).blockFlag
      = none ∧
    (checkLoginAttempts
        { attempts := some (5, 900), blockFlag := none, storeDown := false }).1 =
      .blocked 15 := by
  decide

/-- C4, amended: with the store reachable, `checkLoginAttempts` returns
Blocked with the flag's remaining TTL (in ceiled minutes) when a Block Flag
exists; when no flag exists but the counter is at or above the threshold it
ALSO returns Blocked, additionally setting the Block Flag with the cool-down
TTL and deleting the counter; only when no flag exists and the counter is
below the threshold does it proceed with
`remainingAttempts = MAX_ATTEMPTS - currentCount`.  The read-only
`getLoginAttemptStatus` reports blocked exactly when the flag exists. -/
theorem C4_checkLoginAttempts_spec :
    (∀ s ttl, s.storeDown = false → s.blockFlag = some ttl →
      checkLoginAttempts s = (.blocked ((ttl + 59) / 60), s)) ∧
    (∀ s, s.storeDown = false → s.blockFlag = none →
      MAX_ATTEMPTS ≤ (s.attempts.map Prod.fst).getD 0 →
      checkLoginAttempts s =
        (.blocked 15, { s with blockFlag := some BLOCK_DURATION, attempts := none })) ∧
    (∀ s, s.storeDown = false → s.blockFlag = none →
      (s.attempts.map Prod.fst).getD 0 < MAX_ATTEMPTS →
      checkLoginAttempts s =
        (.proceed (some { currentAttempts := (s.attempts.map Prod.fst).getD 0
                          remainingAttempts :=
                            (MAX_ATTEMPTS : ℤ) - (s.attempts.map Prod.fst).getD 0 }), s)) ∧
    (∀ s r, getLoginAttemptStatus s = some r → (r.blocked = true ↔ s.blockFlag ≠ none)) := by
  refine ⟨?_, ?_, ?_, ?_⟩
  · intro s ttl h hb
    simp [checkLoginAttempts, h, hb]
  · intro s h hb hc
    simp [checkLoginAttempts, h, hb, hc]
  · intro s h hb hc
    simp [checkLoginAttempts, h, hb, Nat.not_le.2 hc]
  · intro s r hr
    simp only [getLoginAttemptStatus] at hr
    split at hr
    · exact Option.noConfusion hr
    · split at hr
      · injection hr with hr
        subst hr
        simp_all
      · injection hr with hr
        subst hr
        simp_all

/-- C4 witness: a state whose Block Flag has 120 seconds left is reported
Blocked with a 2-minute message. -/
theorem C4_witness :
    checkLoginAttempts { attempts := none, blockFlag := some 120, storeDown := false } =
      (.blocked 2, { attempts := none, blockFlag := some 120, storeDown := false }) :=
  (C4_checkLoginAttempts_spec.1
      { attempts := none, blockFlag := some 120, storeDown := false } 120 rfl rfl).trans
    (by decide)

/-- C5: starting from a state with no Attempt Counter and no Block Flag,
five failed login attempts (each a `checkLoginAttempts` pass followed by
`recordFailedAttempt`) make the next `checkLoginAttempts` return Blocked,
whereas four leave it returning NotBlocked (proceed) with one attempt
remaining. -/
theorem C5_five_failures_block :
    (checkLoginAttempts
        (failedLogin^[5] { attempts := none, blockFlag := none, storeDown := false })).1 =
      .blocked 15 ∧
    (checkLoginAttempts
        (failedLogin^[4] { attempts := none, blockFlag := none, storeDown := false })).1 =
      .proceed (some { currentAttempts := 4, remainingAttempts := 1 }) := by
  decide

/-- C6: `clearFailedAttempts` never touches the Block Flag, deletes the
Attempt Counter whenever the store is reachable, is a no-op when the counter
is already absent, and after it runs (unblocked, store up) the next failed
login records count 1 with the window TTL. -/
theorem C6_clearFailedAttempts_spec :
    (∀ s la, (clearFailedAttempts (some la) s).blockFlag = s.blockFlag) ∧
    (∀ s la, s.storeDown = false → (clearFailedAttempts (some la) s).attempts = none) ∧
    (∀ s la, s.attempts = none → clearFailedAttempts (some la) s = s) ∧
    (∀ s la, s.storeDown = false → s.blockFlag = none →
      failedLogin (clearFailedAttempts (some la) s) =
        { attempts := some (1, ATTEMPT_WINDOW), blockFlag := none, storeDown := false }) := by
  refine ⟨?_, ?_, ?_, ?_⟩
  · intro s la
    simp only [clearFailedAttempts]
    split <;> rfl
  · intro s la h
    simp [clearFailedAttempts, h]
  · intro s la h
    obtain ⟨a, b, d⟩ := s
    simp only at h
    subst h
    simp only [clearFailedAttempts]
    split <;> rfl
  · intro s la h1 h2
    obtain ⟨a, b, d⟩ := s
    simp only at h1 h2
    subst h1
    subst h2
    rfl

/-- C6 witness: clearing a state holding 3 failures and then failing once
records count 1 with the attempt-window TTL. -/
theorem C6_witness :
    failedLogin (clearFailedAttempts
        (some { currentAttempts := 3, remainingAttempts := 2 })
        { attempts := some (3, 900), blockFlag := none, storeDown := false }) =
      { attempts := some (1, ATTEMPT_WINDOW), blockFlag := none, storeDown := false } :=
  C6_clearFailedAttempts_spec.2.2.2
    { attempts := some (3, 900), blockFlag := none, storeDown := false }
    { currentAttempts := 3, remainingAttempts := 2 } rfl rfl

/-- C7: when the counter store is unreachable, `checkLoginAttempts` catches
the store error and calls `next()` with nothing stashed — the request is
treated as NotBlocked and proceeds to credential verification with no
user-facing error and no state change (fail open). -/
theorem C7_fail_open (s : RedisState) (h : s.storeDown = true) :
    checkLoginAttempts s = (.proceed none, s) := by
  simp [checkLoginAttempts, h]

/-- C7 witness: the fail-open behaviour on a concrete unreachable-store
state. -/
theorem C7_witness :
    checkLoginAttempts { attempts := none, blockFlag := none, storeDown := true } =
      (.proceed none, { attempts := none, blockFlag := none, storeDown := true }) :=
  C7_fail_open { attempts := none, blockFlag := none, storeDown := true } rfl

end Greenleaf


